import Mathlib

/-!
Shallow embedding of the maveli-runner-server score-validation pipeline.

The repository contains several revisions of the same Express route module:
* `src/backend/routes/game.js` holds three concatenated revisions.  We embed
  the first revision (a pure `validateGameSession`, lines 47-108, called
  "variant 1" / suffix `_v1` below) and the second revision (the HMAC
  session-token revision, lines 289-758, "variant 2" / suffix `_v2`).
* `src/unnamed/part_001` is the session-key revision whose async
  `validateGameSession` consumes a one-time session (in-memory map,
  tombstone set and a Supabase `game_sessions` table); suffix `_p1`.

Modelling conventions, used consistently below:
* JS numbers that the code treats as integers (scores, millisecond
  timestamps, counts) are modelled as `Int`.  The client-supplied
  `duration` is never checked to be a number by the source, so it is
  modelled as `Option Int`: `none` is a value whose arithmetic yields NaN
  (absent, undefined or non-numeric), and every comparison against NaN is
  false, as in JS — a NaN duration therefore never fails a
  duration-dependent check (`durTest`).
* Client-supplied timestamp fields can be numbers or arbitrary JSON values;
  they are modelled by `JsTs`, which records truthiness, the result of
  `new Date(x).getTime()` (`none` = NaN) and the result of numeric coercion
  (`none` = NaN).
* Division appears only in short guarded comparisons; at each such
  comparison the control flow guarantees a positive divisor, and the float
  comparison of the source is written as the equivalent integer
  cross-multiplied comparison, with a comment at each site.  `scoreRateQ`
  is the exact rational score rate used to state rate properties.
* Supabase calls are modelled by explicit state (`SessState`, profile rows)
  plus a `DbEnv` of failure flags for the calls whose failures the routes
  handle.
-/

/-- A client-supplied timestamp-like JSON value.  `num n` is a JS number with
integral value `n`; `nonNum truthy dateParse asNumber` is any non-number value
together with its truthiness, the instant `new Date(x).getTime()` yields
(`none` meaning NaN), and its numeric coercion (`none` meaning NaN). -/
inductive JsTs where
  | num (n : Int)
  | nonNum (truthy : Bool) (dateParse : Option Int) (asNumber : Option Int)
deriving DecidableEq

/-- JS truthiness of a `JsTs` value (`!x` in the source). A numeric 0 is falsy. -/
def jsTruthy : JsTs → Bool
  | .num n => n != 0
  | .nonNum t _ _ => t

/-- Model of `new Date(x).getTime()`: a number is its own instant, any other
value parses to an instant or to NaN (`none`). -/
def dateGetTime : JsTs → Option Int
  | .num n => some n
  | .nonNum _ p _ => p

/-- Model of JS numeric coercion (used by subtraction of event timestamps);
`none` is NaN. -/
def jsToNumber : JsTs → Option Int
  | .num n => some n
  | .nonNum _ _ a => a

/-- JS subtraction of two timestamp values: NaN-propagating. -/
def jsSub (a b : JsTs) : Option Int :=
  match jsToNumber a, jsToNumber b with
  | some x, some y => some (x - y)
  | _, _ => none

/-- One replay event: `{type, timestamp}`. A missing/empty `type` is modelled
by the empty string (falsy, as in the source checks). -/
structure GEvent where
  type : String
  timestamp : JsTs
deriving DecidableEq

/-- The `gameSession` request payload `{startTime, endTime, duration, events,
sessionToken}`.  `events = none` models a missing or non-array `events` field;
`duration = none` models a duration whose arithmetic yields NaN (absent,
undefined or non-numeric — the source never checks this field is a number);
`sessionToken = none` models an absent token (variants other than `_v2`
ignore the field, as their destructuring does). -/
structure GameSessionData where
  startTime : JsTs
  endTime : JsTs
  duration : Option Int
  events : Option (List GEvent)
  sessionToken : Option String
deriving DecidableEq

/-- A duration-dependent rejection test.  In JS every comparison against NaN
is false, so a test on a NaN duration never rejects. -/
def durTest (d : Option Int) (p : Int → Prop) : Prop :=
  match d with
  | some n => p n
  | none => False

instance (d : Option Int) (p : Int → Prop) [DecidablePred p] : Decidable (durTest d p) :=
  match d with
  | some n => (inferInstance : Decidable (p n))
  | none => (inferInstance : Decidable False)

/-- Interpolation of a possibly-NaN duration into a message (only ever
observed for numeric values, since a NaN duration never fails a bounds
test). -/
def durString : Option Int → String
  | some d => toString d
  | none => "NaN"

/-- Result of a validator: `valid` or `invalid reason`. -/
inductive VResult where
  | valid
  | invalid (reason : String)
deriving DecidableEq

/-- Runs a short-circuiting check pipeline: the first failing check (a `some`
reason) determines the rejection, as the early `return`s of the source do. -/
def firstErr : List (Option String) → VResult
  | [] => .valid
  | none :: rest => firstErr rest
  | some r :: _ => .invalid r

/-- Exact rational score rate `(finalScore / duration) * 1000` of the source. -/
def scoreRateQ (finalScore duration : Int) : ℚ :=
  ((finalScore : ℚ) / (duration : ℚ)) * 1000

/-- Consecutive differences `events[i].timestamp - events[i-1].timestamp`
(JS subtraction, NaN-propagating) of a list of jump events. -/
def mkIntervals : List GEvent → List (Option Int)
  | a :: b :: rest => jsSub b.timestamp a.timestamp :: mkIntervals (b :: rest)
  | _ => []

/-- Number of intervals whose value is `< 50` (a NaN interval compares false,
as in JS). -/
def fastReactionCount (l : List (Option Int)) : Nat :=
  (l.filter (fun i => match i with | some n => decide (n < 50) | none => false)).length

/-- Event timestamp interpretation of validator variant 1 (game.js lines
86-88): a numeric timestamp strictly below 10^12 is taken as milliseconds
relative to `startTs`; any other value goes through `new Date(x).getTime()`
(a number being its own instant). -/
def v1EventInstant (startTs : Int) (ts : JsTs) : Option Int :=
  match ts with
  | .num n => if n < 1000000000000 then some (startTs + n) else some n
  | .nonNum _ p _ => p

/-- The per-event loop of validator variant 1 (game.js lines 79-93): each
event needs a truthy `timestamp` and `type`, and its interpreted instant must
be a non-NaN value inside `[startTs, endTs + 1000]`. -/
def v1EventLoop (startTs endTs : Int) : List GEvent → Option String
  | [] => none
  | e :: rest =>
    if jsTruthy e.timestamp = false ∨ e.type = "" then some "Invalid event structure"
    else
      match v1EventInstant startTs e.timestamp with
      | none => some "Event timestamp outside game duration"
      | some t =>
        if t < startTs ∨ t > endTs + 1000 then some "Event timestamp outside game duration"
        else v1EventLoop startTs endTs rest

/-- The check pipeline of validator variant 1 (game.js lines 54-107), after
the structural check.  Constants are GAME_CONSTANTS of that revision:
MIN_GAME_DURATION 1000, MAX_SCORE_PER_SECOND 25, MIN_EVENTS_PER_GAME 2,
SCORE_TOLERANCE 10. -/
def v1Checks (gs : GameSessionData) (events : List GEvent) (finalScore : Int)
    (now : Int) : List (Option String) :=
  let startTs := (dateGetTime gs.startTime).getD 0
  let endTs := (dateGetTime gs.endTime).getD 0
  let expectedScore : Int := (events.filter (fun e => e.type = "score_increment")).length
  [ if (dateGetTime gs.startTime).isNone ∨ (dateGetTime gs.endTime).isNone then
      some "Invalid timestamp format" else none,
    if startTs > now ∨ endTs > now ∨ startTs > endTs then
      some "Invalid timestamp values" else none,
    if durTest gs.duration (fun d => (d - (endTs - startTs)).natAbs > 2000) then
      some "Duration mismatch with timestamps" else none,
    if durTest gs.duration (fun d => d < 1000) then
      some "Game duration too short" else none,
    if events.length < 2 then some "Insufficient game events" else none,
    v1EventLoop startTs endTs events,
    if (finalScore - expectedScore).natAbs > 10 then
      some "Score doesn't match recorded increments" else none,
    -- source: (finalScore / duration) * 1000 > 25; a NaN duration makes the
    -- comparison false, and whenever this test is the first failure the
    -- duration is a number at least 1000, so the float comparison is the
    -- integer comparison 1000 * finalScore > 25 * duration
    if durTest gs.duration (fun d => 1000 * finalScore > 25 * d) then
      some "Score rate too high" else none ]

/-- Validator variant 1 (game.js lines 47-108): a pure function of the
payload, the claimed score and the clock. -/
def validateGameSession_v1 (gs : GameSessionData) (finalScore : Int) (now : Int) : VResult :=
  if gs.events = none ∨ jsTruthy gs.startTime = false ∨ jsTruthy gs.endTime = false then
    .invalid "Invalid game session data structure"
  else firstErr (v1Checks gs (gs.events.getD []) finalScore now)

/-- Population variance comparison `stdDev < 20` of variant 2, cleared of the
square root and of the division by `n`: for a list `xs` of `n` numeric
intervals with sum `S`, `stdDev < 20 ↔ Σ (n·x − S)² < 400·n³`. -/
def varianceBelow400 (xs : List Int) : Prop :=
  (xs.map (fun x =>
      ((xs.length : Int) * x - xs.sum) * ((xs.length : Int) * x - xs.sum))).sum
    < 400 * (xs.length : Int) * (xs.length : Int) * (xs.length : Int)

instance (xs : List Int) : Decidable (varianceBelow400 xs) := by
  unfold varianceBelow400; infer_instance

/-- The check pipeline of validator variant 2 (game.js lines 397-482), after
the structural and session-token steps.  Constants are GAME_CONSTANTS of that
revision: MIN_GAME_DURATION 2000, MAX_GAME_DURATION 600000,
MIN_SCORE_PER_SECOND 15, MAX_SCORE_PER_SECOND 25, MAX_SCORE_LIMIT 1500000,
PHYSICS_TOLERANCE 0.2, MIN_EVENTS 2, MAX_EVENTS 500. -/
def v2Checks (gs : GameSessionData) (events : List GEvent) (finalScore : Int)
    (now : Int) : List (Option String) :=
  let startTs := (dateGetTime gs.startTime).getD 0
  let endTs := (dateGetTime gs.endTime).getD 0
  let jumpEvents := events.filter (fun e => e.type = "jump")
  let jumpIntervals := mkIntervals jumpEvents
  [ if events.length < 2 then
      some ("Too few events: " ++ toString events.length ++ " (minimum 2)") else none,
    if events.length > 500 then
      some ("Too many events: " ++ toString events.length ++ " (maximum 500)") else none,
    if (dateGetTime gs.startTime).isNone ∨ (dateGetTime gs.endTime).isNone then
      some "Invalid timestamp format" else none,
    if startTs > now ∨ endTs > now ∨ startTs > endTs then
      some "Invalid timestamp values" else none,
    -- a NaN duration makes Math.abs(duration - calculatedDuration) > 5000
    -- false, so the mismatch test never rejects it
    if durTest gs.duration (fun d => (d - (endTs - startTs)).natAbs > 5000) then
      some "Duration mismatch with timestamps" else none,
    -- both bound comparisons are false for a NaN duration
    if durTest gs.duration (fun d => d < 2000 ∨ d > 600000) then
      some ("Invalid game duration: " ++ durString gs.duration ++ "ms") else none,
    if ¬ events.any (fun e => e.type = "game_start") then
      some "Missing game_start event" else none,
    if ¬ events.any (fun e => e.type = "collision" ∨ e.type = "game_over") then
      some "Missing collision/game_over event" else none,
    if finalScore < 0 ∨ finalScore > 1500000 then
      some ("Score out of range: " ++ toString finalScore) else none,
    -- source: scoreRate = (finalScore / duration) * 1000, rejected when
    -- scoreRate < 15 or scoreRate > 25; a NaN duration gives a NaN rate and
    -- both comparisons are false; whenever this test is the first failure
    -- the duration is a number at least 2000, so the float comparisons are
    -- the integer comparisons below (the source message interpolates the
    -- computed rate; the interpolated number is not reproduced)
    if durTest gs.duration
        (fun d => 1000 * finalScore < 15 * d ∨ 1000 * finalScore > 25 * d) then
      some "Invalid score rate" else none,
    -- source: scoreDifference > Math.max(100, expectedScore * 0.2) with
    -- expectedScore = Math.floor(duration / 50); a NaN duration makes both
    -- sides NaN and the comparison false; multiplied by 5 this is the
    -- integer comparison below (the source message interpolates the
    -- numbers; they are not reproduced)
    if durTest gs.duration (fun d =>
        5 * ((finalScore - Int.fdiv d 50).natAbs : Int) > max 500 (Int.fdiv d 50)) then
      some "Score physics violation" else none,
    -- source lines 459-476: inside `if (jumpEvents.length > 0)`, with more
    -- than 5 intervals the standard deviation of the intervals is computed;
    -- `stdDev < 20 && jumpIntervals.length > 10` rejects.  A NaN interval
    -- (non-numeric timestamp) makes stdDev NaN and the comparison false,
    -- hence the all-numeric conjunct.
    if jumpEvents.length > 0 ∧ jumpIntervals.length > 5 ∧ jumpIntervals.length > 10 ∧
        jumpIntervals.all Option.isSome ∧ varianceBelow400 (jumpIntervals.filterMap id) then
      some "Detected non-human jump patterns" else none,
    -- source lines 478-481: fastReactions.length > jumpIntervals.length * 0.3,
    -- i.e. 10 * fast > 3 * total
    if jumpEvents.length > 0 ∧
        10 * (fastReactionCount jumpIntervals : Int) > 3 * (jumpIntervals.length : Int) then
      some "Too many impossible reaction times detected" else none ]

/-- Validator variant 2 (game.js lines 378-486).  The session-token step
(lines 391-395) calls `verifySessionToken`; on failure the source only logs
"Session token verification failed, but continuing validation..." and
proceeds, so both branches below continue with the same checks.
`verifyTok` abstracts `verifySessionToken(token, userId)` (HMAC signature,
owner and age check) at the current clock. -/
def validateGameSession_v2 (gs : GameSessionData) (finalScore : Int) (now : Int)
    (verifyTok : String → Bool) : VResult :=
  if gs.events = none ∨ jsTruthy gs.startTime = false ∨ jsTruthy gs.endTime = false then
    .invalid "Invalid game session data structure"
  else if (gs.sessionToken.map (fun t => verifyTok t)) = some false then
    -- verification failure is only logged; validation continues (line 393)
    firstErr (v2Checks gs (gs.events.getD []) finalScore now)
  else
    firstErr (v2Checks gs (gs.events.getD []) finalScore now)

/-- An in-memory session entry of part_001: `activeGameSessions.set(userId,
{sessionKey, created})`. -/
structure MemSession where
  sessionKey : String
  created : Int
deriving DecidableEq

/-- A Supabase `game_sessions` row of part_001. -/
structure DbSession where
  user_id : String
  session_key : String
  created_at : Int
  expires_at : Int
deriving DecidableEq

/-- The shared session state of part_001: the in-memory `activeGameSessions`
map (association list, first match wins, newer entries in front), the
`completedSessions` tombstone set (a list without duplicates) and the
Supabase `game_sessions` table. -/
structure SessState where
  activeGameSessions : List (String × MemSession)
  completedSessions : List String
  dbSessions : List DbSession
deriving DecidableEq

/-- Lookup in the `activeGameSessions` map. -/
def lookupMem (m : List (String × MemSession)) (userId : String) : Option MemSession :=
  (m.find? (fun p => p.1 = userId)).map (fun p => p.2)

/-- `Map.set`: the new binding shadows (and here replaces) any old one. -/
def mapSet (m : List (String × MemSession)) (k : String) (v : MemSession) :
    List (String × MemSession) :=
  (k, v) :: m.filter (fun p => ¬ p.1 = k)

/-- `Set.add` for the tombstone list. -/
def setAdd (l : List String) (k : String) : List String :=
  if k ∈ l then l else k :: l

/-- The Supabase fallback of check 3 (part_001 lines 110-129): select the
`game_sessions` row with matching user, key and `expires_at ≥ now`;
`.single()` errors unless exactly one row matches.  On success the session is
cached in the in-memory map. -/
def sessionDbFallback (st : SessState) (userId sessionKey : String) (now : Int) :
    Option SessState :=
  match st.dbSessions.filter
      (fun r => r.user_id = userId ∧ r.session_key = sessionKey ∧ now ≤ r.expires_at) with
  | [r] =>
    let cached := mapSet st.activeGameSessions userId ⟨sessionKey, r.created_at⟩
    some { st with activeGameSessions := cached }
  | _ => none

/-- Check 3 of part_001 (lines 100-133): the in-memory session for the user
must exist and carry the presented key, else fall back to Supabase.  Returns
the (possibly cache-updated) state on success, `none` on failure. -/
def sessionLookup (st : SessState) (userId sessionKey : String) (now : Int) :
    Option SessState :=
  match lookupMem st.activeGameSessions userId with
  | some ms =>
    if ms.sessionKey = sessionKey then some st
    else sessionDbFallback st userId sessionKey now
  | none => sessionDbFallback st userId sessionKey now

/-- The pure replay checks of part_001 (checks 4-16, lines 135-400).
Constants are GAME_CONSTANTS of that revision: MIN_GAME_DURATION 2000,
MAX_GAME_DURATION and MAX_EVENTS and MAX_SUBMISSION_DELAY 999999999999999,
MIN_SCORE_PER_SECOND 10, MAX_SCORE_PER_SECOND 30, MAX_SCORE_LIMIT 15000000,
PHYSICS_TOLERANCE 0.5, MIN_EVENTS 2, REQUIRE_FRESH_GAME true; the max game
age of check 7 is 6 hours. -/
def p1Checks (gs : GameSessionData) (events : List GEvent) (finalScore : Int)
    (now : Int) : List (Option String) :=
  let startTs := (dateGetTime gs.startTime).getD 0
  let endTs := (dateGetTime gs.endTime).getD 0
  let jumpEvents := events.filter (fun e => e.type = "jump")
  let jumpIntervals := mkIntervals jumpEvents
  let obstacleSpawns : Int := (events.filter (fun e => e.type = "obstacle_spawn")).length
  [ -- check 4: submission delay; gameEndTime is computed before the NaN check
    -- of check 6, and a NaN delay compares false
    (match dateGetTime gs.endTime with
     | some e => if now - e > 999999999999999 then some "Game session expired" else none
     | none => none),
    if events.length < 2 then some "Invalid game data" else none,
    if events.length > 999999999999999 then some "Invalid game data" else none,
    if (dateGetTime gs.startTime).isNone ∨ (dateGetTime gs.endTime).isNone then
      some "Invalid game data" else none,
    if startTs > now ∨ endTs > now ∨ startTs > endTs then some "Invalid game data" else none,
    -- check 7: game age, 6 * 60 * 60 * 1000 ms
    if now - startTs > 21600000 then some "Game session expired" else none,
    -- check 8: a NaN duration makes the mismatch comparison false
    if durTest gs.duration (fun d => (d - (endTs - startTs)).natAbs > 10000) then
      some "Invalid game data" else none,
    -- check 9: both bound comparisons are false for a NaN duration
    if durTest gs.duration (fun d => d < 2000 ∨ d > 999999999999999) then
      some "Invalid game data" else none,
    if ¬ events.any (fun e => e.type = "game_start") then some "Invalid game data" else none,
    if ¬ events.any (fun e => e.type = "collision" ∨ e.type = "game_over") then
      some "Invalid game data" else none,
    if finalScore < 0 ∨ finalScore > 15000000 then some "Invalid score data" else none,
    -- check 12: scoreRate = (finalScore / duration) * 1000 outside [10, 30];
    -- a NaN duration gives a NaN rate and both comparisons are false;
    -- whenever this test is the first failure the duration is a number at
    -- least 2000, so these are the integer comparisons below
    if durTest gs.duration
        (fun d => 1000 * finalScore < 10 * d ∨ 1000 * finalScore > 30 * d) then
      some "Invalid score data" else none,
    -- check 13: scoreDifference > tolerance with baseTolerance =
    -- max(200, expectedScore * 0.5) and expectedScore =
    -- Math.floor(duration / 50), doubled when finalScore > 5000; a NaN
    -- duration makes the comparison false; multiplied by 2 this is the
    -- integer comparison below
    if durTest gs.duration (fun d =>
        2 * ((finalScore - Int.fdiv d 50).natAbs : Int) >
          (if finalScore > 5000 then 2 * max 400 (Int.fdiv d 50)
           else max 400 (Int.fdiv d 50))) then
      some "Invalid score data" else none,
    -- check 14: inside `if (jumpEvents.length > 0)`, with more than 10
    -- intervals, fastReactions.length > jumpIntervals.length * maxRatio where
    -- maxRatio is 0.5 for duration > 300000 and 0.3 otherwise (a NaN
    -- duration compares false and selects 0.3)
    if jumpEvents.length > 0 ∧ jumpIntervals.length > 10 ∧
        (if durTest gs.duration (fun d => d > 300000) then
          2 * (fastReactionCount jumpIntervals : Int) > (jumpIntervals.length : Int)
        else
          10 * (fastReactionCount jumpIntervals : Int) > 3 * (jumpIntervals.length : Int)) then
      some "Invalid game data" else none,
    -- check 15a: jumpEvents.length < obstacleSpawns * 0.7 for finalScore > 1000
    if finalScore > 1000 ∧ 10 * ((jumpEvents.length : Int)) < 7 * obstacleSpawns then
      some "Invalid game data" else none,
    -- check 15b: no jumps for finalScore > 500
    if finalScore > 500 ∧ jumpEvents.length = 0 then some "Invalid game data" else none,
    if events.any (fun e => e.type = "integrity_violation") then
      some "Invalid game data" else none ]

/-- The synchronous phase of part_001 validateGameSession, up to but not
including the consumption writes: check 1 (structure, line 83), check 2
(tombstone, line 94), check 3 (session lookup, lines 100-133, which may cache
a Supabase row in memory) and the pure checks 4-16.  On the in-memory-hit
path this whole phase runs without an await, i.e. without yielding to other
requests. -/
def p1ChecksPhase (st : SessState) (gs : GameSessionData) (finalScore : Int)
    (userId sessionKey : String) (now : Int) : VResult × SessState :=
  if gs.events = none ∨ jsTruthy gs.startTime = false ∨ jsTruthy gs.endTime = false then
    (.invalid "Invalid game data", st)
  else if sessionKey ∈ st.completedSessions then
    (.invalid "Game session expired", st)
  else
    match sessionLookup st userId sessionKey now with
    | none => (.invalid "Game session expired", st)
    | some st1 =>
      match firstErr (p1Checks gs (gs.events.getD []) finalScore now) with
      | .invalid r => (.invalid r, st1)
      | .valid => (.valid, st1)

/-- The consumption writes of part_001 validateGameSession (lines 402-415):
delete the `game_sessions` row and add the key to the tombstone set.  A
failed Supabase delete is only logged in the source; the tombstone is added
regardless. -/
def consumeSession (st : SessState) (userId sessionKey : String) : SessState :=
  { st with
    dbSessions := st.dbSessions.filter
      (fun r => ¬ (r.user_id = userId ∧ r.session_key = sessionKey)),
    completedSessions := setAdd st.completedSessions sessionKey }

/-- part_001 validateGameSession (lines 64-420), run to completion without
interleaving: the checks phase followed, on success, by the consumption
writes. -/
def validateGameSession_p1 (st : SessState) (gs : GameSessionData) (finalScore : Int)
    (userId sessionKey : String) (now : Int) : VResult × SessState :=
  match p1ChecksPhase st gs finalScore userId sessionKey now with
  | (.valid, st1) => (.valid, consumeSession st1 userId sessionKey)
  | r => r

/-- Two concurrent submissions racing through part_001 validateGameSession.
Node interleaves requests at await points; on the in-memory-hit path the only
await between the tombstone check (line 94) and the tombstone add (line 415)
is the Supabase delete (line 403).  The schedule modelled here is: request A
runs its checks phase and suspends at the delete, request B runs its checks
phase, then both resume and commit.  Returns both results and the final
state. -/
def p1RaceOutcome (st : SessState) (gs : GameSessionData) (finalScore : Int)
    (userId sessionKey : String) (now : Int) : VResult × VResult × SessState :=
  let a := p1ChecksPhase st gs finalScore userId sessionKey now
  let b := p1ChecksPhase a.2 gs finalScore userId sessionKey now
  let st3 := if a.1 = .valid then consumeSession b.2 userId sessionKey else b.2
  let st4 := if b.1 = .valid then consumeSession st3 userId sessionKey else st3
  (a.1, b.1, st4)

/-- A `USER_PROFILES` row of the submitting user: `{score, last_updated}`.
`last_updated = none` models a row whose `last_updated` is null. -/
structure Profile where
  score : Int
  last_updated : Option Int
deriving DecidableEq

/-- Failure flags for the profile-store calls whose errors the routes handle:
a non-PGRST116 fetch error, an insert error, and an update/upsert error. -/
structure DbEnv where
  fetchOtherError : Bool
  createError : Bool
  updateError : Bool
deriving DecidableEq

/-- A `/scoreupdate` HTTP outcome, restricted to the payload parts the spec
talks about: 400 with a message, 429 with `cooldownRemaining`, 500 with a
message, the non-error no-op `{success:false, currentHighScore,
submittedScore}`, and the success `{success:true, newHighScore,
previousHighScore}` (the improvement being their difference). -/
inductive Resp where
  | badRequest (msg : String)
  | tooMany (cooldownRemaining : Int)
  | serverError (msg : String)
  | noop (currentHighScore submittedScore : Int)
  | ok (newHighScore previousHighScore : Int)
deriving DecidableEq

/-- `Math.ceil(a / b)` for integer `a` and positive integer `b`. -/
def jsCeilDiv (a b : Int) : Int := -(Int.fdiv (-a) b)

/-- The stored high score of the submitting user (0 when no row exists). -/
def storedScore : Option Profile → Int
  | some p => p.score
  | none => 0

/-- getOrCreateProfile of variant 2 and part_001 (identical in both): fetch
the row; on PGRST116 (no row) insert `{score: 0, last_updated: now}`; `none`
models a thrown error (other fetch error or insert error).  Returns the
profile together with the updated store. -/
def getOrCreateProfile (store : Option Profile) (env : DbEnv) (now : Int) :
    Option (Profile × Option Profile) :=
  if env.fetchOtherError = true then none
  else
    match store with
    | some p => some (p, store)
    | none =>
      if env.createError = true then none
      else some (⟨0, some now⟩, some ⟨0, some now⟩)

/-- The tail of the variant-1 `/scoreupdate` handler after the validation
block (game.js lines 163-217): fetch the profile (PGRST116 tolerated, missing
row means high score 0), cooldown of 3000 ms on `last_updated`, ratchet, then
upsert.  Shared by all paths out of the validation block, which only logs. -/
def scoreupdateRest_v1 (store : Option Profile) (env : DbEnv) (score : Int)
    (now : Int) : Resp × Option Profile :=
  if env.fetchOtherError = true then (.serverError "Failed to fetch current score", store)
  else
    let currentHighScore := storedScore store
    let lastUpdated := store.bind (fun p => p.last_updated)
    match lastUpdated with
    | some lu =>
      if now - lu < 3000 then (.tooMany (jsCeilDiv (3000 - (now - lu)) 1000), store)
      else if score ≤ currentHighScore then (.noop currentHighScore score, store)
      else if env.updateError = true then (.serverError "Failed to update score", store)
      else (.ok score currentHighScore, some ⟨score, some now⟩)
    | none =>
      if score ≤ currentHighScore then (.noop currentHighScore score, store)
      else if env.updateError = true then (.serverError "Failed to update score", store)
      else (.ok score currentHighScore, some ⟨score, some now⟩)

/-- The variant-1 `/scoreupdate` handler (game.js lines 140-223), after
authentication.  A score must be a non-negative integer at most 1500000.
When a `gameSession` is present it is validated, but a failed validation is
only logged ("Game session validation failed for user ...", lines 156-161)
and the handler proceeds to fetch, cooldown, ratchet and upsert. -/
def scoreupdate_v1 (store : Option Profile) (env : DbEnv) (score : Int)
    (gameSession : Option GameSessionData) (now : Int) : Resp × Option Profile :=
  if score < 0 then (.badRequest "Invalid score format", store)
  else if score > 1500000 then (.badRequest "Score exceeds maximum allowed", store)
  else
    match gameSession with
    | some gs =>
      match validateGameSession_v1 gs score now with
      | .invalid _ => scoreupdateRest_v1 store env score now
      | .valid => scoreupdateRest_v1 store env score now
    | none => scoreupdateRest_v1 store env score now

/-- The variant-2 `/scoreupdate` handler (game.js lines 600-686), after
authentication: input checks, validation (terminal on failure),
getOrCreateProfile, cooldown of COOLDOWN_PERIOD = 3000 ms, ratchet, update. -/
def scoreupdate_v2 (store : Option Profile) (env : DbEnv) (score : Int)
    (gameSession : Option GameSessionData) (verifyTok : String → Bool)
    (now : Int) : Resp × Option Profile :=
  if score < 0 then (.badRequest "Invalid score format", store)
  else if score > 1500000 then (.badRequest "Score exceeds maximum allowed", store)
  else
    match gameSession with
    | none => (.badRequest "Game session data required", store)
    | some gs =>
      match validateGameSession_v2 gs score now verifyTok with
      | .invalid r => (.badRequest ("Game validation failed: " ++ r), store)
      | .valid =>
        match getOrCreateProfile store env now with
        | none => (.serverError "Failed to access user profile", store)
        | some (p, store1) =>
          match p.last_updated with
          | some lu =>
            if now - lu < 3000 then (.tooMany (jsCeilDiv (3000 - (now - lu)) 1000), store1)
            else if score ≤ p.score then (.noop p.score score, store1)
            else if env.updateError = true then (.serverError "Failed to update score", store1)
            else (.ok score p.score, some ⟨score, some now⟩)
          | none =>
            if score ≤ p.score then (.noop p.score score, store1)
            else if env.updateError = true then (.serverError "Failed to update score", store1)
            else (.ok score p.score, some ⟨score, some now⟩)

/-- The part_001 `/scoreupdate` handler (lines 554-654), after
authentication: input checks (score a non-negative integer at most
MAX_SCORE_LIMIT = 15000000, `gameSession` an object, `sessionKey` truthy),
the session-consuming validation (terminal on failure), getOrCreateProfile,
cooldown of 3000 ms, ratchet, update; a successful update also removes the
in-memory session entry of the user (line 638).  Returns the response, the
session state and the profile store. -/
def scoreupdate_p1 (st : SessState) (store : Option Profile) (env : DbEnv)
    (score : Int) (gameSession : Option GameSessionData) (sessionKey : Option String)
    (userId : String) (now : Int) : Resp × SessState × Option Profile :=
  if score < 0 then (.badRequest "Invalid request data", st, store)
  else if score > 15000000 then (.badRequest "Invalid request data", st, store)
  else
    match gameSession with
    | none => (.badRequest "Invalid request data", st, store)
    | some gs =>
      match sessionKey with
      | none => (.badRequest "Invalid request data", st, store)
      | some sk =>
        match validateGameSession_p1 st gs score userId sk now with
        | (.invalid r, st1) => (.badRequest ("Game validation failed: " ++ r), st1, store)
        | (.valid, st1) =>
          match getOrCreateProfile store env now with
          | none => (.serverError "Failed to access user profile", st1, store)
          | some (p, store1) =>
            match p.last_updated with
            | some lu =>
              if now - lu < 3000 then
                (.tooMany (jsCeilDiv (3000 - (now - lu)) 1000), st1, store1)
              else if score ≤ p.score then (.noop p.score score, st1, store1)
              else if env.updateError = true then
                (.serverError "Failed to update score", st1, store1)
              else
                let st2 := { st1 with activeGameSessions :=
                    st1.activeGameSessions.filter (fun q => ¬ q.1 = userId) }
                (.ok score p.score, st2, some ⟨score, some now⟩)
            | none =>
              if score ≤ p.score then (.noop p.score score, st1, store1)
              else if env.updateError = true then
                (.serverError "Failed to update score", st1, store1)
              else
                let st2 := { st1 with activeGameSessions :=
                    st1.activeGameSessions.filter (fun q => ¬ q.1 = userId) }
                (.ok score p.score, st2, some ⟨score, some now⟩)

/-- One submission of a sequence against the variant-2 handler: the inputs
of `scoreupdate_v2` other than the store. -/
structure SubV2 where
  env : DbEnv
  score : Int
  gameSession : Option GameSessionData
  verifyTok : String → Bool
  now : Int

/-- The store left by one variant-2 submission. -/
def submitStepV2 (store : Option Profile) (sub : SubV2) : Option Profile :=
  (scoreupdate_v2 store sub.env sub.score sub.gameSession sub.verifyTok sub.now).2

/-! Concrete inputs used by counterexamples and witnesses. -/

/-- No-failure database environment. -/
def envOk : DbEnv := ⟨false, false, false⟩

/-- A replay accepted by validator variant 1 with claimed score 0: ten
seconds of play, two well-formed events, no score_increment events. -/
def gsV1Slow : GameSessionData :=
  ⟨.num 1000000, .num 1010000, some 10000,
   some [⟨"game_start", .num 100⟩, ⟨"game_over", .num 9000⟩], none⟩

/-- A structurally parseable replay whose startTime lies in the future, so
validator variant 1 rejects it with "Invalid timestamp values". -/
def gsV1Future : GameSessionData :=
  ⟨.num 2000000, .num 2000001, some 1, some [], none⟩

/-- A replay accepted by validator variant 2 at claimed score 200: ten
seconds, game_start and collision events, no jumps, no session token. -/
def gsV2Ok : GameSessionData :=
  ⟨.num 1000000, .num 1010000, some 10000,
   some [⟨"game_start", .num 1⟩, ⟨"collision", .num 2⟩], none⟩

/-- The same shape with a session token attached. -/
def gsV2Tok : GameSessionData :=
  ⟨.num 1000000, .num 1010000, some 10000,
   some [⟨"game_start", .num 1⟩, ⟨"collision", .num 2⟩], some "tok"⟩

/-- A replay accepted by validator variant 2 at claimed score 1000 with zero
jump events: fifty seconds, only game_start and collision events. -/
def gsV2NoJump : GameSessionData :=
  ⟨.num 1000000, .num 1050000, some 50000,
   some [⟨"game_start", .num 1⟩, ⟨"collision", .num 2⟩], none⟩

/-- A replay accepted by validator variant 2 at claimed score 50: 2.5
seconds, game_start and collision events. -/
def gsV2Small : GameSessionData :=
  ⟨.num 1000000, .num 1002500, some 2500,
   some [⟨"game_start", .num 1⟩, ⟨"collision", .num 2⟩], none⟩

/-- A payload with no numeric duration: every duration-dependent check of
validator variant 2 compares against NaN and passes. -/
def gsV2NoDur : GameSessionData :=
  ⟨.num 1000000, .num 1010000, none,
   some [⟨"game_start", .num 1⟩, ⟨"collision", .num 2⟩], none⟩

/-- A replay accepted by the part_001 checks at claimed score 200. -/
def gsP1Ok : GameSessionData :=
  ⟨.num 1000000, .num 1010000, some 10000,
   some [⟨"game_start", .num 1⟩, ⟨"collision", .num 2⟩], none⟩

/-- A replay the part_001 checks reject (duration below MIN_GAME_DURATION). -/
def gsP1Short : GameSessionData :=
  ⟨.num 1000000, .num 1000100, some 100,
   some [⟨"game_start", .num 1⟩, ⟨"collision", .num 2⟩], none⟩

/-- part_001 session state for the race counterexample: user u1 holds live
session k1, cached in memory and stored in Supabase. -/
def stRace : SessState :=
  ⟨[("u1", ⟨"k1", 900000⟩)], [], [⟨"u1", "k1", 900000, 2000000⟩]⟩

/-- part_001 session state for the sequential single-use witness. -/
def stSeq : SessState :=
  ⟨[("u2", ⟨"k2", 900000⟩)], [], [⟨"u2", "k2", 900000, 2000000⟩]⟩

/-- part_001 session state for the purity counterexample. -/
def stPure : SessState :=
  ⟨[("u3", ⟨"k3", 900000⟩)], [], [⟨"u3", "k3", 900000, 2000000⟩]⟩

/-- part_001 session state for the rejection-idempotence witness. -/
def stMal : SessState :=
  ⟨[("u4", ⟨"k4", 900000⟩)], [], []⟩

/-- part_001 session state for the irrevocable-consumption witness. -/
def stIrr : SessState :=
  ⟨[("u5", ⟨"k5", 900000⟩)], [], [⟨"u5", "k5", 900000, 2000000⟩]⟩

/-- Empty part_001 session state. -/
def stEmpty : SessState := ⟨[], [], []⟩

/-! Helper lemmas. -/

theorem firstErr_nil : firstErr [] = .valid := rfl

theorem firstErr_cons (o : Option String) (l : List (Option String)) :
    firstErr (o :: l) = .valid ↔ o = none ∧ firstErr l = .valid := by
  cases o <;> simp [firstErr]

theorem guard_none_iff (c : Prop) [Decidable c] (m : String) :
    (if c then some m else none) = none ↔ ¬ c := by
  by_cases h : c <;> simp [h]

theorem scoreRateQ_lt_iff (s d c : Int) (hd : 0 < d) :
    scoreRateQ s d < (c : ℚ) ↔ 1000 * s < c * d := by
  have hdq : (0 : ℚ) < (d : ℚ) := by exact_mod_cast hd
  rw [scoreRateQ, div_mul_eq_mul_div, div_lt_iff₀ hdq, mul_comm ((s : ℚ)) 1000]
  exact_mod_cast Iff.rfl

theorem scoreRateQ_gt_iff (s d c : Int) (hd : 0 < d) :
    (c : ℚ) < scoreRateQ s d ↔ c * d < 1000 * s := by
  have hdq : (0 : ℚ) < (d : ℚ) := by exact_mod_cast hd
  rw [scoreRateQ, div_mul_eq_mul_div, lt_div_iff₀ hdq, mul_comm ((s : ℚ)) 1000]
  exact_mod_cast Iff.rfl

theorem scoreRateQ_le_iff (s d c : Int) (hd : 0 < d) :
    (c : ℚ) ≤ scoreRateQ s d ↔ c * d ≤ 1000 * s := by
  have hdq : (0 : ℚ) < (d : ℚ) := by exact_mod_cast hd
  rw [scoreRateQ, div_mul_eq_mul_div, le_div_iff₀ hdq, mul_comm ((s : ℚ)) 1000]
  exact_mod_cast Iff.rfl

theorem v1_valid_loop (gs : GameSessionData) (score now : Int)
    (h : validateGameSession_v1 gs score now = .valid) :
    v1EventLoop ((dateGetTime gs.startTime).getD 0) ((dateGetTime gs.endTime).getD 0)
      (gs.events.getD []) = none := by
  unfold validateGameSession_v1 at h
  split at h
  · exact absurd h (by simp)
  · simp only [v1Checks, firstErr_cons, firstErr_nil, guard_none_iff, and_true] at h
    exact h.2.2.2.2.2.1

theorem v1EventLoop_none (startTs endTs : Int) (l : List GEvent)
    (h : v1EventLoop startTs endTs l = none) :
    ∀ e ∈ l, ∃ t, v1EventInstant startTs e.timestamp = some t ∧
      startTs ≤ t ∧ t ≤ endTs + 1000 := by
  induction l with
  | nil => simp
  | cons e rest ih =>
    unfold v1EventLoop at h
    split at h
    · exact absurd h (by simp)
    · cases hi : v1EventInstant startTs e.timestamp with
      | none => rw [hi] at h; exact absurd h (by simp)
      | some t =>
        rw [hi] at h
        dsimp only at h
        by_cases hrange : t < startTs ∨ t > endTs + 1000
        · rw [if_pos hrange] at h; exact absurd h (by simp)
        · rw [if_neg hrange] at h
          intro x hx
          rcases List.mem_cons.mp hx with hx | hx
          · exact ⟨t, by rw [hx]; exact hi, by omega, by omega⟩
          · exact ih h x hx

theorem v2_valid_facts (gs : GameSessionData) (score now : Int) (vt : String → Bool)
    (h : validateGameSession_v2 gs score now vt = .valid) :
    (0 ≤ score ∧ score ≤ 1500000) ∧
    ∀ d, gs.duration = some d →
      (2000 ≤ d ∧ d ≤ 600000) ∧ 15 * d ≤ 1000 * score ∧ 1000 * score ≤ 25 * d := by
  unfold validateGameSession_v2 at h
  split at h
  · exact absurd h (by simp)
  · split at h <;>
    · simp only [v2Checks, firstErr_cons, firstErr_nil, guard_none_iff, and_true] at h
      obtain ⟨-, -, -, -, -, h6, -, -, h9, h10, -⟩ := h
      refine ⟨⟨by omega, by omega⟩, fun d hd => ?_⟩
      rw [hd] at h6 h10
      simp only [durTest] at h6 h10
      exact ⟨⟨by omega, by omega⟩, by omega, by omega⟩

theorem validateGameSession_p1_eq (st : SessState) (gs : GameSessionData)
    (s : Int) (u k : String) (now : Int) :
    validateGameSession_p1 st gs s u k now =
      (if (p1ChecksPhase st gs s u k now).1 = .valid then
        (.valid, consumeSession (p1ChecksPhase st gs s u k now).2 u k)
      else p1ChecksPhase st gs s u k now) := by
  unfold validateGameSession_p1
  rcases hp : p1ChecksPhase st gs s u k now with ⟨r, st1⟩
  cases r <;> simp

theorem p1ChecksPhase_valid_iff (st : SessState) (gs : GameSessionData)
    (s : Int) (u k : String) (now : Int) (st1 : SessState) :
    p1ChecksPhase st gs s u k now = (.valid, st1) ↔
      ¬ (gs.events = none ∨ jsTruthy gs.startTime = false ∨ jsTruthy gs.endTime = false) ∧
      k ∉ st.completedSessions ∧
      sessionLookup st u k now = some st1 ∧
      firstErr (p1Checks gs (gs.events.getD []) s now) = .valid := by
  unfold p1ChecksPhase
  by_cases hA : gs.events = none ∨ jsTruthy gs.startTime = false ∨ jsTruthy gs.endTime = false
  · rw [if_pos hA]; simp [hA]
  · rw [if_neg hA]
    by_cases hB : k ∈ st.completedSessions
    · rw [if_pos hB]; simp [hA, hB]
    · rw [if_neg hB]
      cases hl : sessionLookup st u k now with
      | none => simp [hA, hB]
      | some st2 =>
        cases hf : firstErr (p1Checks gs (gs.events.getD []) s now) with
        | valid => simp [hA, hB, hf]
        | invalid r => simp [hA, hB, hf]

theorem p1ChecksPhase_invalid_cases (st : SessState) (gs : GameSessionData)
    (s : Int) (u k : String) (now : Int) (r : String) (st' : SessState)
    (h : p1ChecksPhase st gs s u k now = (.invalid r, st')) :
    st' = st ∨
      (¬ (gs.events = none ∨ jsTruthy gs.startTime = false ∨ jsTruthy gs.endTime = false) ∧
       k ∉ st.completedSessions ∧
       sessionLookup st u k now = some st' ∧
       firstErr (p1Checks gs (gs.events.getD []) s now) = .invalid r) := by
  unfold p1ChecksPhase at h
  by_cases hA : gs.events = none ∨ jsTruthy gs.startTime = false ∨ jsTruthy gs.endTime = false
  · rw [if_pos hA] at h; exact Or.inl (congrArg Prod.snd h).symm
  · rw [if_neg hA] at h
    by_cases hB : k ∈ st.completedSessions
    · rw [if_pos hB] at h; exact Or.inl (congrArg Prod.snd h).symm
    · rw [if_neg hB] at h
      cases hl : sessionLookup st u k now with
      | none => rw [hl] at h; exact Or.inl (congrArg Prod.snd h).symm
      | some st2 =>
        rw [hl] at h
        dsimp only at h
        cases hf : firstErr (p1Checks gs (gs.events.getD []) s now) with
        | valid => rw [hf] at h; exact absurd (congrArg Prod.fst h) (by simp)
        | invalid r2 =>
          rw [hf] at h
          dsimp only at h
          have h1 : r2 = r := by simpa using congrArg Prod.fst h
          have h2 : st2 = st' := by simpa using congrArg Prod.snd h
          exact Or.inr ⟨hA, hB, by rw [h2], by rw [h1]⟩

theorem p1ChecksPhase_build_invalid (st : SessState) (gs : GameSessionData)
    (s : Int) (u k : String) (now : Int) (st1 : SessState) (r : String)
    (hA : ¬ (gs.events = none ∨ jsTruthy gs.startTime = false ∨ jsTruthy gs.endTime = false))
    (hB : k ∉ st.completedSessions)
    (hl : sessionLookup st u k now = some st1)
    (hf : firstErr (p1Checks gs (gs.events.getD []) s now) = .invalid r) :
    p1ChecksPhase st gs s u k now = (.invalid r, st1) := by
  unfold p1ChecksPhase
  rw [if_neg hA, if_neg hB, hl, hf]

theorem p1ChecksPhase_expired (st : SessState) (gs : GameSessionData)
    (s : Int) (u k : String) (now : Int)
    (hA : ¬ (gs.events = none ∨ jsTruthy gs.startTime = false ∨ jsTruthy gs.endTime = false))
    (hB : k ∈ st.completedSessions) :
    p1ChecksPhase st gs s u k now = (.invalid "Game session expired", st) := by
  unfold p1ChecksPhase
  rw [if_neg hA, if_pos hB]

theorem lookupMem_mapSet (m : List (String × MemSession)) (u : String) (v : MemSession) :
    lookupMem (mapSet m u v) u = some v := by
  unfold lookupMem mapSet
  simp [List.find?]

theorem sessionDbFallback_state (st : SessState) (u k : String) (now : Int)
    (st1 : SessState) (h : sessionDbFallback st u k now = some st1) :
    st1.completedSessions = st.completedSessions ∧ st1.dbSessions = st.dbSessions ∧
    ∃ c, lookupMem st1.activeGameSessions u = some ⟨k, c⟩ := by
  unfold sessionDbFallback at h
  cases hrows : st.dbSessions.filter
      (fun r => r.user_id = u ∧ r.session_key = k ∧ now ≤ r.expires_at) with
  | nil => rw [hrows] at h; exact absurd h (by simp)
  | cons r rest =>
    cases rest with
    | nil =>
      rw [hrows] at h
      dsimp only at h
      rw [Option.some_inj] at h
      subst h
      exact ⟨rfl, rfl, r.created_at, lookupMem_mapSet _ _ _⟩
    | cons r2 rest2 => rw [hrows] at h; exact absurd h (by simp)

theorem sessionLookup_state (st : SessState) (u k : String) (now : Int) (st1 : SessState)
    (h : sessionLookup st u k now = some st1) :
    st1.completedSessions = st.completedSessions ∧ st1.dbSessions = st.dbSessions ∧
    ∃ c, lookupMem st1.activeGameSessions u = some ⟨k, c⟩ := by
  unfold sessionLookup at h
  cases hm : lookupMem st.activeGameSessions u with
  | some ms =>
    rw [hm] at h
    dsimp only at h
    by_cases hk : ms.sessionKey = k
    · rw [if_pos hk] at h
      have hst : st = st1 := by simpa using h
      subst hst
      refine ⟨rfl, rfl, ms.created, ?_⟩
      rw [hm]
      cases ms
      simp_all
    · rw [if_neg hk] at h
      exact sessionDbFallback_state st u k now st1 h
  | none =>
    rw [hm] at h
    dsimp only at h
    exact sessionDbFallback_state st u k now st1 h

theorem sessionLookup_idem (st : SessState) (u k : String) (now : Int) (st1 : SessState)
    (h : sessionLookup st u k now = some st1) :
    sessionLookup st1 u k now = some st1 := by
  obtain ⟨-, -, c, hm⟩ := sessionLookup_state st u k now st1 h
  unfold sessionLookup
  rw [hm]
  simp

theorem setAdd_mem (l : List String) (k : String) : k ∈ setAdd l k := by
  unfold setAdd
  by_cases h : k ∈ l <;> simp [h]

theorem consumeSession_completed (st : SessState) (u k : String) :
    k ∈ (consumeSession st u k).completedSessions := by
  unfold consumeSession
  exact setAdd_mem _ _

theorem p1_fst (st : SessState) (gs : GameSessionData) (s : Int) (u k : String) (now : Int) :
    (validateGameSession_p1 st gs s u k now).1 = (p1ChecksPhase st gs s u k now).1 := by
  rw [validateGameSession_p1_eq]
  by_cases h : (p1ChecksPhase st gs s u k now).1 = .valid
  · rw [if_pos h, h]
  · rw [if_neg h]

theorem p1Checks_valid_facts (gs : GameSessionData) (evs : List GEvent) (s now : Int)
    (h : firstErr (p1Checks gs evs s now) = .valid) :
    (0 ≤ s ∧ s ≤ 15000000) ∧
    (500 < s → (evs.filter (fun e => e.type = "jump")).length ≠ 0) := by
  simp only [p1Checks, firstErr_cons, firstErr_nil, guard_none_iff, and_true] at h
  obtain ⟨-, -, -, -, -, -, -, -, -, -, h11, -, -, -, -, h16, -⟩ := h
  refine ⟨⟨by omega, by omega⟩, fun h5 hlen => ?_⟩
  exact h16 ⟨h5, hlen⟩

theorem getOrCreateProfile_spec (store : Option Profile) (env : DbEnv) (now : Int)
    (p : Profile) (store1 : Option Profile)
    (h : getOrCreateProfile store env now = some (p, store1)) :
    (store = some p ∧ store1 = store) ∨
    (store = none ∧ p = ⟨0, some now⟩ ∧ store1 = some ⟨0, some now⟩) := by
  unfold getOrCreateProfile at h
  by_cases hf : env.fetchOtherError = true
  · rw [if_pos hf] at h; exact absurd h (by simp)
  · rw [if_neg hf] at h
    cases store with
    | some q =>
      dsimp only at h
      rw [Option.some_inj] at h
      exact Or.inl ⟨by rw [(Prod.mk.injEq _ _ _ _).mp h |>.1], (Prod.mk.injEq _ _ _ _).mp h |>.2.symm⟩
    | none =>
      dsimp only at h
      by_cases hc : env.createError = true
      · rw [if_pos hc] at h; exact absurd h (by simp)
      · rw [if_neg hc] at h
        rw [Option.some_inj] at h
        exact Or.inr ⟨rfl, ((Prod.mk.injEq _ _ _ _).mp h).1.symm,
          ((Prod.mk.injEq _ _ _ _).mp h).2.symm⟩

theorem structOk_of (gs : GameSessionData) (h1 : gs.events ≠ none)
    (h2 : jsTruthy gs.startTime = true) (h3 : jsTruthy gs.endTime = true) :
    ¬ (gs.events = none ∨ jsTruthy gs.startTime = false ∨ jsTruthy gs.endTime = false) := by
  intro h
  rcases h with h | h | h
  · exact h1 h
  · rw [h2] at h; simp at h
  · rw [h3] at h; simp at h

theorem scoreupdate_p1_completed (st : SessState) (store : Option Profile) (env : DbEnv)
    (score : Int) (gs : GameSessionData) (u k : String) (now : Int) (stv : SessState)
    (hs0 : 0 ≤ score) (hs1 : score ≤ 15000000)
    (hval : validateGameSession_p1 st gs score u k now = (.valid, stv)) :
    (scoreupdate_p1 st store env score (some gs) (some k) u now).2.1.completedSessions
      = stv.completedSessions := by
  unfold scoreupdate_p1
  rw [if_neg (by omega), if_neg (by omega)]
  dsimp only
  rw [hval]
  dsimp only
  cases hg : getOrCreateProfile store env now with
  | none => rfl
  | some pr =>
    obtain ⟨p, store1⟩ := pr
    dsimp only
    cases hlu : p.last_updated with
    | some lu =>
      dsimp only
      split
      · rfl
      · split
        · rfl
        · split
          · rfl
          · rfl
    | none =>
      dsimp only
      split
      · rfl
      · split
        · rfl
        · rfl

theorem scoreupdate_p1_tombstoned (st : SessState) (store : Option Profile) (env : DbEnv)
    (score : Int) (gs : GameSessionData) (u k : String) (now : Int)
    (hs0 : 0 ≤ score) (hs1 : score ≤ 15000000)
    (hA : ¬ (gs.events = none ∨ jsTruthy gs.startTime = false ∨ jsTruthy gs.endTime = false))
    (hB : k ∈ st.completedSessions) :
    scoreupdate_p1 st store env score (some gs) (some k) u now
      = (.badRequest "Game validation failed: Game session expired", st, store) := by
  have hphase := p1ChecksPhase_expired st gs score u k now hA hB
  have hval : validateGameSession_p1 st gs score u k now
      = (.invalid "Game session expired", st) := by
    rw [validateGameSession_p1_eq, hphase]
    simp
  unfold scoreupdate_p1
  rw [if_neg (by omega), if_neg (by omega)]
  dsimp only
  rw [hval]
  dsimp only
  rw [show "Game validation failed: " ++ "Game session expired"
      = "Game validation failed: Game session expired" from by decide]

theorem scoreupdate_v2_mono (store : Option Profile) (env : DbEnv) (score : Int)
    (gameSession : Option GameSessionData) (vt : String → Bool) (now : Int) :
    storedScore store ≤ storedScore (scoreupdate_v2 store env score gameSession vt now).2 := by
  unfold scoreupdate_v2
  split
  · exact le_refl _
  · split
    · exact le_refl _
    · cases gameSession with
      | none => exact le_refl _
      | some gs =>
        dsimp only
        cases validateGameSession_v2 gs score now vt with
        | invalid r => exact le_refl _
        | valid =>
          dsimp only
          cases hg : getOrCreateProfile store env now with
          | none => exact le_refl _
          | some pr =>
            obtain ⟨p, store1⟩ := pr
            dsimp only
            have hspec := getOrCreateProfile_spec store env now p store1 hg
            have hps : p.score = storedScore store ∧ storedScore store1 = storedScore store := by
              rcases hspec with ⟨h1, h2⟩ | ⟨h1, h2, h3⟩
              · rw [h2, h1]; exact ⟨rfl, rfl⟩
              · rw [h3, h2, h1]; exact ⟨rfl, rfl⟩
            cases p.last_updated with
            | some lu =>
              dsimp only
              split
              · simp only; omega
              · split
                · simp only; omega
                · split
                  · simp only; omega
                  · next hnle _ =>
                    simp only [storedScore] at hps ⊢
                    omega
            | none =>
              dsimp only
              split
              · simp only; omega
              · split
                · simp only; omega
                · next hnle _ =>
                  simp only [storedScore] at hps ⊢
                  omega

theorem foldl_submitStepV2_mono (subs : List SubV2) (store : Option Profile) :
    storedScore store ≤ storedScore (subs.foldl submitStepV2 store) := by
  induction subs generalizing store with
  | nil => exact le_refl _
  | cons s rest ih =>
    calc storedScore store
        ≤ storedScore (submitStepV2 store s) :=
          scoreupdate_v2_mono store s.env s.score s.gameSession s.verifyTok s.now
      _ ≤ storedScore (rest.foldl submitStepV2 (submitStepV2 store s)) := ih _

/-! Claim theorems. -/

/-- C1 counterexample: two concurrent submissions presenting the same session
key k1, interleaved at the await point between the tombstone check and the
tombstone add of part_001 validateGameSession, both get past the
session-consumption step, so "at most one submit call gets past the
session-consumption step" fails under concurrency. -/
theorem p1_session_race_both_pass :
    (p1RaceOutcome stRace gsP1Ok 200 "u1" "k1" 1010000).1 = .valid ∧
    (p1RaceOutcome stRace gsP1Ok 200 "u1" "k1" 1010000).2.1 = .valid :=
  ⟨by decide, by decide⟩

/-- C1 (amended): in sequential, non-interleaved execution of part_001
validateGameSession, a submission that passes validation leaves its session
key in the completed-session tombstone set, and every later call presenting
the same key, against any state still holding that tombstone and with a
structurally well-formed payload, is rejected with "Game session expired". -/
theorem p1_session_single_use (st : SessState) (gs : GameSessionData) (score : Int)
    (u k : String) (now : Int) (st' : SessState)
    (hv : validateGameSession_p1 st gs score u k now = (.valid, st')) :
    k ∈ st'.completedSessions ∧
    ∀ (st2 : SessState) (gs2 : GameSessionData) (score2 : Int) (u2 : String) (now2 : Int),
      k ∈ st2.completedSessions → gs2.events ≠ none →
      jsTruthy gs2.startTime = true → jsTruthy gs2.endTime = true →
      (validateGameSession_p1 st2 gs2 score2 u2 k now2).1 = .invalid "Game session expired" := by
  constructor
  · rw [validateGameSession_p1_eq] at hv
    by_cases hph : (p1ChecksPhase st gs score u k now).1 = .valid
    · rw [if_pos hph] at hv
      have hst : st' = consumeSession (p1ChecksPhase st gs score u k now).2 u k := by
        simpa using (congrArg Prod.snd hv).symm
      rw [hst]
      exact consumeSession_completed _ _ _
    · rw [if_neg hph] at hv
      exact absurd (congrArg Prod.fst hv) hph
  · intro st2 gs2 score2 u2 now2 hmem hne h1 h2
    rw [p1_fst,
      p1ChecksPhase_expired st2 gs2 score2 u2 k now2 (structOk_of gs2 hne h1 h2) hmem]

/-- C1 witness: after user u2 validates a run with session key k2, the key is
tombstoned and an immediate retry with the same key is rejected. -/
theorem p1_session_single_use_witness :
    "k2" ∈ (⟨[("u2", ⟨"k2", 900000⟩)], ["k2"], []⟩ : SessState).completedSessions ∧
    (validateGameSession_p1 ⟨[("u2", ⟨"k2", 900000⟩)], ["k2"], []⟩
        gsP1Ok 200 "u2" "k2" 1010000).1 = .invalid "Game session expired" := by
  have h := p1_session_single_use stSeq gsP1Ok 200 "u2" "k2" 1010000
    ⟨[("u2", ⟨"k2", 900000⟩)], ["k2"], []⟩ (by decide)
  exact ⟨h.1, h.2 _ gsP1Ok 200 "u2" 1010000 h.1 (by decide) (by decide) (by decide)⟩

/-- C2 counterexample: in the variant-1 route a submission whose replay fails
validation (future startTime, rejected with "Invalid timestamp values") is
not terminal: the handler proceeds, fetches the profile and persists the
claimed score as the new high score. -/
theorem v1_validation_failure_not_terminal :
    validateGameSession_v1 gsV1Future 100 1010000 = .invalid "Invalid timestamp values" ∧
    scoreupdate_v1 none envOk 100 (some gsV1Future) 1010000
      = (.ok 100 0, some ⟨100, some 1010000⟩) :=
  ⟨by decide, by decide⟩

/-- C2 (amended): in the variant-2 route a failed replay validation is
terminal: the handler answers 400 with the validation reason and the profile
store (hence the stored high score) is untouched; no profile fetch, cooldown
check, ratchet comparison or persistence runs.  Variant 1 only logs the
failure and continues. -/
theorem v2_validation_failure_terminal (store : Option Profile) (env : DbEnv)
    (score : Int) (gs : GameSessionData) (vt : String → Bool) (now : Int) (r : String)
    (hs0 : 0 ≤ score) (hs1 : score ≤ 1500000)
    (hv : validateGameSession_v2 gs score now vt = .invalid r) :
    scoreupdate_v2 store env score (some gs) vt now
      = (.badRequest ("Game validation failed: " ++ r), store) := by
  unfold scoreupdate_v2
  rw [if_neg (by omega), if_neg (by omega)]
  dsimp only
  rw [hv]

/-- C2 witness: a concrete failing submission against the variant-2 route is
rejected with 400 and leaves the profile row unchanged. -/
theorem v2_validation_failure_terminal_witness :
    scoreupdate_v2 (some ⟨7, some 0⟩) envOk 100 (some gsV1Future) (fun _ => true) 1010000
      = (.badRequest ("Game validation failed: " ++ "Too few events: 0 (minimum 2)"),
         some ⟨7, some 0⟩) :=
  v2_validation_failure_terminal (some ⟨7, some 0⟩) envOk 100 gsV1Future (fun _ => true)
    1010000 "Too few events: 0 (minimum 2)" (by decide) (by decide) (by decide)

/-- C3 counterexample: in validator variant 2 a submission presenting a
session token that fails signature verification (the verifier returns false
on every token) is not rejected: verification failure is only logged and the
replay is accepted, contradicting "rejected with SessionExpired before any
later step runs". -/
theorem v2_bad_token_accepted :
    gsV2Tok.sessionToken = some "tok" ∧
    validateGameSession_v2 gsV2Tok 200 1010000 (fun _ => false) = .valid :=
  ⟨rfl, by decide⟩

/-- C3 (amended): in the part_001 route, a submission whose session key is
not tombstoned but has no matching live session (absent from the in-memory
map and from the non-expired Supabase rows) is rejected with the collapsed
"Game session expired" outcome before any later step: the session state and
the profile store are returned unchanged, so the stored high score cannot
rise.  The variant-2 session-token validator, by contrast, continues after a
failed signature verification. -/
theorem p1_missing_session_rejected (st : SessState) (store : Option Profile) (env : DbEnv)
    (score : Int) (gs : GameSessionData) (u k : String) (now : Int)
    (hs0 : 0 ≤ score) (hs1 : score ≤ 15000000)
    (hne : gs.events ≠ none) (ht1 : jsTruthy gs.startTime = true)
    (ht2 : jsTruthy gs.endTime = true)
    (hnc : k ∉ st.completedSessions)
    (hlk : sessionLookup st u k now = none) :
    scoreupdate_p1 st store env score (some gs) (some k) u now
      = (.badRequest "Game validation failed: Game session expired", st, store) := by
  have hphase : p1ChecksPhase st gs score u k now = (.invalid "Game session expired", st) := by
    unfold p1ChecksPhase
    rw [if_neg (structOk_of gs hne ht1 ht2), if_neg hnc, hlk]
  have hval : validateGameSession_p1 st gs score u k now
      = (.invalid "Game session expired", st) := by
    rw [validateGameSession_p1_eq, hphase]
    simp
  unfold scoreupdate_p1
  rw [if_neg (by omega), if_neg (by omega)]
  dsimp only
  rw [hval]
  dsimp only
  rw [show "Game validation failed: " ++ "Game session expired"
      = "Game validation failed: Game session expired" from by decide]

/-- C3 witness: a submission against an empty session registry is rejected
with "Game session expired", leaving state and store unchanged. -/
theorem p1_missing_session_rejected_witness :
    scoreupdate_p1 stEmpty none envOk 200 (some gsP1Ok) (some "nokey") "u1" 1010000
      = (.badRequest "Game validation failed: Game session expired", stEmpty, none) :=
  p1_missing_session_rejected stEmpty none envOk 200 gsP1Ok "u1" "nokey" 1010000
    (by decide) (by decide) (by decide) (by decide) (by decide) (by decide) (by decide)

/-- C4: consumption is irrevocable in the part_001 route.  When validation
passes (and thus consumes the session inside validateGameSession, before the
route acts on the outcome), the session key is in the tombstone set of the
state the route returns, whatever happens in the later profile, cooldown,
ratchet and persistence steps; and any retry presenting the same key (with a
well-formed payload and in-range score) is rejected with "Game session
expired". -/
theorem p1_consumption_irrevocable (st : SessState) (store : Option Profile) (env : DbEnv)
    (score : Int) (gs : GameSessionData) (u k : String) (now : Int)
    (hv : (validateGameSession_p1 st gs score u k now).1 = .valid) :
    k ∈ (scoreupdate_p1 st store env score (some gs) (some k) u now).2.1.completedSessions ∧
    ∀ (store2 : Option Profile) (env2 : DbEnv) (score2 : Int) (gs2 : GameSessionData)
      (u2 : String) (now2 : Int),
      0 ≤ score2 → score2 ≤ 15000000 → gs2.events ≠ none →
      jsTruthy gs2.startTime = true → jsTruthy gs2.endTime = true →
      (scoreupdate_p1 (scoreupdate_p1 st store env score (some gs) (some k) u now).2.1
          store2 env2 score2 (some gs2) (some k) u2 now2).1
        = .badRequest "Game validation failed: Game session expired" := by
  have hval : validateGameSession_p1 st gs score u k now
      = (.valid, (validateGameSession_p1 st gs score u k now).2) := by rw [← hv]
  have hph : (p1ChecksPhase st gs score u k now).1 = .valid := by rw [← p1_fst]; exact hv
  have hpair : p1ChecksPhase st gs score u k now
      = (.valid, (p1ChecksPhase st gs score u k now).2) := by rw [← hph]
  have hfacts := (p1ChecksPhase_valid_iff st gs score u k now _).mp hpair
  have hb := p1Checks_valid_facts gs (gs.events.getD []) score now hfacts.2.2.2
  have hstv : (validateGameSession_p1 st gs score u k now).2
      = consumeSession (p1ChecksPhase st gs score u k now).2 u k := by
    rw [validateGameSession_p1_eq, if_pos hph]
  have hmem : k ∈ (validateGameSession_p1 st gs score u k now).2.completedSessions := by
    rw [hstv]
    exact consumeSession_completed _ _ _
  have hroute : (scoreupdate_p1 st store env score (some gs) (some k) u now).2.1.completedSessions
      = (validateGameSession_p1 st gs score u k now).2.completedSessions :=
    scoreupdate_p1_completed st store env score gs u k now _ hb.1.1 hb.1.2 hval
  have hmem2 : k ∈ (scoreupdate_p1 st store env score (some gs) (some k) u now).2.1.completedSessions := by
    rw [hroute]
    exact hmem
  refine ⟨hmem2, ?_⟩
  intro store2 env2 score2 gs2 u2 now2 hs0 hs1 hne ht1 ht2
  rw [scoreupdate_p1_tombstoned _ store2 env2 score2 gs2 u2 k now2 hs0 hs1
    (structOk_of gs2 hne ht1 ht2) hmem2]

/-- C4 witness: user u5 validates and persists a run with key k5; the key is
tombstoned in the returned state and a retry with the same key is
rejected. -/
theorem p1_consumption_irrevocable_witness :
    "k5" ∈ (scoreupdate_p1 stIrr (some ⟨100, some 0⟩) envOk 200 (some gsP1Ok)
        (some "k5") "u5" 1010000).2.1.completedSessions ∧
    (scoreupdate_p1 (scoreupdate_p1 stIrr (some ⟨100, some 0⟩) envOk 200 (some gsP1Ok)
          (some "k5") "u5" 1010000).2.1
        (some ⟨200, some 1010000⟩) envOk 300 (some gsP1Ok) (some "k5") "u5" 1010005).1
      = .badRequest "Game validation failed: Game session expired" := by
  have h := p1_consumption_irrevocable stIrr (some ⟨100, some 0⟩) envOk 200 gsP1Ok
    "u5" "k5" 1010000 (by decide)
  exact ⟨h.1, h.2 (some ⟨200, some 1010000⟩) envOk 300 gsP1Ok "u5" 1010005
    (by decide) (by decide) (by decide) (by decide) (by decide)⟩

/-- C5 counterexample: validator variant 1 has no minimum score-rate check;
it accepts a ten-second replay with claimed score 0, whose score rate 0 lies
below both configured minima of the other revisions (15 and 10 points per
second), contradicting "rejects whenever scoreRate lies outside
[minScorePerSecond, maxScorePerSecond]". -/
theorem v1_slow_score_accepted :
    validateGameSession_v1 gsV1Slow 0 1010000 = .valid ∧
    gsV1Slow.duration = some 10000 ∧
    scoreRateQ 0 10000 < 15 ∧ scoreRateQ 0 10000 < 10 := by
  refine ⟨by decide, rfl, ?_, ?_⟩
  · show scoreRateQ 0 10000 < 15
    norm_num [scoreRateQ]
  · show scoreRateQ 0 10000 < 10
    norm_num [scoreRateQ]

/-- C5 (amended): validator variant 2 computes scoreRate = claimedScore /
duration * 1000 and rejects whenever it lies outside [15, 25] — in
particular a too-slow claimed score is rejected, not only a too-fast one.
Validator variant 1 checks only the maximum rate. -/
theorem v2_score_rate_bounds (gs : GameSessionData) (d score now : Int)
    (vt : String → Bool)
    (hdur : gs.duration = some d)
    (h : scoreRateQ score d < 15 ∨ 25 < scoreRateQ score d) :
    validateGameSession_v2 gs score now vt ≠ .valid := by
  intro hv
  obtain ⟨-, hfacts⟩ := v2_valid_facts gs score now vt hv
  obtain ⟨⟨hd1, -⟩, hr1, hr2⟩ := hfacts d hdur
  have hd : (0 : Int) < d := by omega
  rcases h with h | h
  · have hlt : (1000 : Int) * score < 15 * d :=
      (scoreRateQ_lt_iff score d 15 hd).mp (by exact_mod_cast h)
    omega
  · have hlt : (25 : Int) * d < 1000 * score :=
      (scoreRateQ_gt_iff score d 25 hd).mp (by exact_mod_cast h)
    omega

/-- C5 witness: a ten-second replay with claimed score 10 (rate 1 point per
second, below the minimum 15) is rejected by validator variant 2. -/
theorem v2_score_rate_bounds_witness :
    scoreRateQ 10 10000 < 15 ∧
    validateGameSession_v2 gsV2Ok 10 1010000 (fun _ => true) ≠ .valid := by
  have hq : scoreRateQ 10 10000 < 15 := by
    have hd : (0 : Int) < 10000 := by decide
    have h := (scoreRateQ_lt_iff 10 10000 15 hd).mpr (by decide)
    exact_mod_cast h
  exact ⟨hq, v2_score_rate_bounds gsV2Ok 10000 10 1010000 (fun _ => true) rfl (Or.inl hq)⟩

/-- C6: monotonic ratchet in the variant-2 route.  First, over any sequence
of submissions the stored high score is non-decreasing.  Second, a
submission that passes validation, against an existing profile row, outside
the cooldown window and with claimedScore at most the current high score,
returns the non-error no-op response carrying the current high score and the
submitted score, and leaves the profile row unchanged (no database
update). -/
theorem v2_ratchet_monotone_noop :
    (∀ (subs : List SubV2) (store : Option Profile),
        storedScore store ≤ storedScore (subs.foldl submitStepV2 store)) ∧
    (∀ (store : Option Profile) (env : DbEnv) (score : Int) (gs : GameSessionData)
        (vt : String → Bool) (now : Int) (p : Profile),
      store = some p → env.fetchOtherError = false →
      validateGameSession_v2 gs score now vt = .valid →
      (∀ lu, p.last_updated = some lu → 3000 ≤ now - lu) →
      score ≤ p.score →
      scoreupdate_v2 store env score (some gs) vt now = (.noop p.score score, store)) := by
  constructor
  · exact fun subs store => foldl_submitStepV2_mono subs store
  · intro store env score gs vt now p hst hfe hv hcool hle
    obtain ⟨⟨hs0, hs1⟩, -⟩ := v2_valid_facts gs score now vt hv
    subst hst
    unfold scoreupdate_v2
    rw [if_neg (by omega), if_neg (by omega)]
    dsimp only
    rw [hv]
    dsimp only
    have hg : getOrCreateProfile (some p) env now = some (p, some p) := by
      unfold getOrCreateProfile
      rw [if_neg (by simp [hfe])]
    rw [hg]
    dsimp only
    cases hlu : p.last_updated with
    | some lu =>
      dsimp only
      rw [if_neg (by have := hcool lu hlu; omega), if_pos hle]
    | none =>
      dsimp only
      rw [if_pos hle]

/-- C6 witness: a valid 2.5-second run with claimed score 50 against a
stored high score of 100 yields the no-op response and an unchanged row. -/
theorem v2_ratchet_monotone_noop_witness :
    scoreupdate_v2 (some ⟨100, some 0⟩) envOk 50 (some gsV2Small) (fun _ => true) 1002500
      = (.noop 100 50, some ⟨100, some 0⟩) :=
  v2_ratchet_monotone_noop.2 (some ⟨100, some 0⟩) envOk 50 gsV2Small (fun _ => true) 1002500
    ⟨100, some 0⟩ rfl rfl (by decide)
    (fun lu hlu => by injection hlu with h; omega) (by decide)

/-- C7 counterexample: validator variant 2 runs its jump analysis only when
at least one jump event is present; it accepts a fifty-second replay with
claimed score 1000 (above the 500 floor of part_001) containing zero jump
events, contradicting "rejected outright". -/
theorem v2_zero_jump_accepted :
    validateGameSession_v2 gsV2NoJump 1000 1050000 (fun _ => true) = .valid ∧
    ((gsV2NoJump.events.getD []).filter (fun e => e.type = "jump")).length = 0 ∧
    (500 : Int) < 1000 :=
  ⟨by decide, by decide, by decide⟩

/-- C7 (amended): the part_001 validator rejects every submission whose
claimed score is above the 500 floor and whose replay records zero jump
events (check 15b); the variant-2 validator has no such outright
rejection. -/
theorem p1_zero_jump_rejected (st : SessState) (gs : GameSessionData) (evs : List GEvent)
    (score : Int) (u k : String) (now : Int)
    (hev : gs.events = some evs)
    (hscore : 500 < score)
    (hjump : (evs.filter (fun e => e.type = "jump")).length = 0) :
    (validateGameSession_p1 st gs score u k now).1 ≠ .valid := by
  intro hv
  rw [p1_fst] at hv
  have hpair : p1ChecksPhase st gs score u k now
      = (.valid, (p1ChecksPhase st gs score u k now).2) := by rw [← hv]
  have hfacts := (p1ChecksPhase_valid_iff st gs score u k now _).mp hpair
  have hb := p1Checks_valid_facts gs (gs.events.getD []) score now hfacts.2.2.2
  simp only [hev, Option.getD_some] at hb
  exact hb.2 hscore hjump

/-- C7 witness: a zero-jump replay with claimed score 501 is rejected by the
part_001 validator. -/
theorem p1_zero_jump_rejected_witness :
    (validateGameSession_p1 stEmpty gsP1Ok 501 "u1" "k1" 1010000).1 ≠ .valid :=
  p1_zero_jump_rejected stEmpty gsP1Ok
    [⟨"game_start", .num 1⟩, ⟨"collision", .num 2⟩] 501 "u1" "k1" 1010000
    rfl (by decide) (by decide)

/-- C8 counterexample: the part_001 validator is not a pure function of the
replay, score, configuration and clock: with identical inputs and clock, the
first call accepts the submission and mutates the shared session state, and
the second call is rejected with "Game session expired". -/
theorem p1_validator_stateful_cex :
    validateGameSession_p1 stPure gsP1Ok 200 "u3" "k3" 1010000
      = (.valid, ⟨[("u3", ⟨"k3", 900000⟩)], ["k3"], []⟩) ∧
    validateGameSession_p1 ⟨[("u3", ⟨"k3", 900000⟩)], ["k3"], []⟩ gsP1Ok 200 "u3" "k3" 1010000
      = (.invalid "Game session expired", ⟨[("u3", ⟨"k3", 900000⟩)], ["k3"], []⟩) :=
  ⟨by decide, by decide⟩

/-- C8 (amended): although the part_001 validator reads and mutates shared
session state, rejection is idempotent: a submission rejected with some
reason, re-validated at the same clock against the state the first call
left, is rejected with the same reason and the state is unchanged — the same
malformed replay yields the same rejection category both times. -/
theorem p1_rejection_idempotent (st st' : SessState) (gs : GameSessionData)
    (score : Int) (u k : String) (now : Int) (r : String)
    (h : validateGameSession_p1 st gs score u k now = (.invalid r, st')) :
    validateGameSession_p1 st' gs score u k now = (.invalid r, st') := by
  rw [validateGameSession_p1_eq] at h
  by_cases hph : (p1ChecksPhase st gs score u k now).1 = .valid
  · rw [if_pos hph] at h
    exact absurd (congrArg Prod.fst h) (by simp)
  · rw [if_neg hph] at h
    rcases p1ChecksPhase_invalid_cases st gs score u k now r st' h with heq | ⟨hA, hB, hl, hf⟩
    · subst heq
      rw [validateGameSession_p1_eq, h]
      simp
    · obtain ⟨hc, -, -⟩ := sessionLookup_state st u k now st' hl
      have hB2 : k ∉ st'.completedSessions := by rw [hc]; exact hB
      have hl2 := sessionLookup_idem st u k now st' hl
      have hphase2 := p1ChecksPhase_build_invalid st' gs score u k now st' r hA hB2 hl2 hf
      rw [validateGameSession_p1_eq, hphase2]
      simp

/-- C8 witness: a malformed replay (duration below the minimum) rejected
once with "Invalid game data" is rejected identically when re-validated. -/
theorem p1_rejection_idempotent_witness :
    validateGameSession_p1 stMal gsP1Short 0 "u4" "k4" 1000100
      = (.invalid "Invalid game data", stMal) :=
  p1_rejection_idempotent stMal stMal gsP1Short 0 "u4" "k4" 1000100 "Invalid game data"
    (by decide)

/-- C9: in validator variant 1, event timestamps follow two conventions — a
numeric timestamp strictly below 10^12 is milliseconds relative to startTs,
anything else is parsed as an absolute instant — and every event of an
accepted replay has an interpreted instant (no NaN) inside
[startTs, endTs + 1000]; a replay with an event outside that window cannot
validate. -/
theorem v1_event_timestamp_convention (gs : GameSessionData) (evs : List GEvent)
    (sts ets score now : Int)
    (hev : gs.events = some evs)
    (hs : dateGetTime gs.startTime = some sts)
    (he : dateGetTime gs.endTime = some ets)
    (hv : validateGameSession_v1 gs score now = .valid) :
    (∀ n : Int, n < 1000000000000 → v1EventInstant sts (.num n) = some (sts + n)) ∧
    (∀ n : Int, ¬ n < 1000000000000 → v1EventInstant sts (.num n) = some n) ∧
    (∀ (b : Bool) (p a : Option Int), v1EventInstant sts (.nonNum b p a) = p) ∧
    (∀ e ∈ evs, ∃ t, v1EventInstant sts e.timestamp = some t ∧
      sts ≤ t ∧ t ≤ ets + 1000) := by
  refine ⟨fun n hn => by simp [v1EventInstant, hn],
    fun n hn => by simp [v1EventInstant, hn],
    fun b p a => rfl, ?_⟩
  have hloop := v1_valid_loop gs score now hv
  rw [hs, he, hev] at hloop
  simp only [Option.getD_some] at hloop
  exact v1EventLoop_none sts ets evs hloop

/-- C9 witness: the accepted slow replay instantiates the convention and the
window bound for its two events. -/
theorem v1_event_timestamp_convention_witness :
    (∀ n : Int, n < 1000000000000 → v1EventInstant 1000000 (.num n) = some (1000000 + n)) ∧
    (∀ n : Int, ¬ n < 1000000000000 → v1EventInstant 1000000 (.num n) = some n) ∧
    (∀ (b : Bool) (p a : Option Int), v1EventInstant 1000000 (.nonNum b p a) = p) ∧
    (∀ e ∈ [(⟨"game_start", .num 100⟩ : GEvent), ⟨"game_over", .num 9000⟩],
      ∃ t, v1EventInstant 1000000 e.timestamp = some t ∧
        1000000 ≤ t ∧ t ≤ 1010000 + 1000) :=
  v1_event_timestamp_convention gsV1Slow
    [⟨"game_start", .num 100⟩, ⟨"game_over", .num 9000⟩]
    1000000 1010000 0 1010000 rfl rfl rfl (by decide)

/-- C10 counterexample: a payload omitting `duration` (NaN in every
arithmetic use) passes the structural check, and the duration-mismatch,
duration-bounds, score-rate and physics checks of validator variant 2 all
compare against NaN and pass, so a truthful claimed score of 0 is accepted —
refuting "a claimed score of 0, or any score below 30, can never be
accepted". -/
theorem v2_nan_duration_zero_accepted :
    gsV2NoDur.duration = none ∧ (0 : Int) < 30 ∧
    validateGameSession_v2 gsV2NoDur 0 1010000 (fun _ => true) = .valid :=
  ⟨rfl, by decide, by decide⟩

/-- C10 (amended): every replay that validator variant 2 accepts and that
carries a numeric duration has duration at least 2000 ms and score rate at
least 15 points per second, hence a claimed score of at least 30.  A payload
whose duration is absent or non-numeric (NaN) skips every
duration-dependent check and can be accepted with claimed score 0. -/
theorem v2_min_accepted_score (gs : GameSessionData) (d score now : Int)
    (vt : String → Bool)
    (hdur : gs.duration = some d)
    (hv : validateGameSession_v2 gs score now vt = .valid) :
    2000 ≤ d ∧ (15 : ℚ) ≤ scoreRateQ score d ∧ 30 ≤ score := by
  obtain ⟨⟨hs0, -⟩, hfacts⟩ := v2_valid_facts gs score now vt hv
  obtain ⟨⟨hd1, -⟩, hr1, -⟩ := hfacts d hdur
  have hdp : (0 : Int) < d := by omega
  refine ⟨hd1, ?_, by omega⟩
  have h := (scoreRateQ_le_iff score d 15 hdp).mpr (by omega)
  exact_mod_cast h

/-- C10 witness: the accepted ten-second score-200 replay carries a numeric
duration and satisfies the bounds. -/
theorem v2_min_accepted_score_witness :
    2000 ≤ (10000 : Int) ∧ (15 : ℚ) ≤ scoreRateQ 200 10000 ∧ 30 ≤ (200 : Int) :=
  v2_min_accepted_score gsV2Ok 10000 200 1010000 (fun _ => true) rfl (by decide)
